import Mathlib

/-!
Hotel Bogota booking page (`react-third-party-v2/src/App.js`).

A shallow embedding of the `App` component: its three pieces of React state
(`tokens`, `roomTypesData`, `discount`), the negotiation callback, the
room-data load, `applyDiscount` and `book`.

Asynchronous functions are embedded twice: once run to completion without
interleaving (`applyDiscount`, `book`), and once as an event-loop machine
(`step`, `run`) in which every `await` is a suspension point that a later
`resumed` event continues.  `applyDiscount_as_events` relates the two.

External collaborators are parameters: the catalog reached through `fetch`
is a function from the requested URL to what the request settles with.
-/

namespace App

/-! ## JavaScript values -/

/-- The errors a promise of this component can reject with. -/
inductive JsError
  | typeError
  | networkError
  | parseError
  deriving DecidableEq, Repr

deriving instance DecidableEq for Except

/-- A JavaScript Number.  `finite negative digits exponent` is the number
`digits * 10 ^ exponent`, negated when `negative`, read off the shortest
decimal that JavaScript prints for the number: 12.5 is
`finite false 125 (-1)`, 1e21 is `finite false 1 21`.  Zeros at the end of
`digits` may as well be counted in `exponent`; `toString` prints both
spellings alike. -/
inductive JsNumber
  | finite (negative : Bool) (digits : Nat) (exponent : Int)
  | nan
  | infinity (negative : Bool)
  deriving DecidableEq, Repr

/-- A digit string without the zeros at its end, and how many there were. -/
def stripTrailingZeros (ds : List Char) : List Char × Nat :=
  let kept := (ds.reverse.dropWhile fun c => c == '0').reverse
  (kept, ds.length - kept.length)

/-- The rendering of a positive Number with significant digits `s` whose
decimal point stands after the `n`-th digit, as `Number.prototype.toString`
lays it out: plain digits up to 21 integer digits and down to 6 leading
fractional zeros, exponent form beyond. -/
def formatDigits (s : List Char) (n : Int) : String :=
  let k : Int := s.length
  if k ≤ n ∧ n ≤ 21 then
    String.mk (s ++ List.replicate (n - k).toNat '0')
  else if 0 < n ∧ n ≤ 21 then
    String.mk (s.take n.toNat ++ '.' :: s.drop n.toNat)
  else if -6 < n ∧ n ≤ 0 then
    String.mk ('0' :: '.' :: List.replicate (-n).toNat '0' ++ s)
  else
    let e := n - 1
    let mantissa := if s.length = 1 then s else s.take 1 ++ '.' :: s.drop 1
    String.mk mantissa ++ "e" ++ (if e < 0 then "-" else "+") ++ Nat.repr e.natAbs

/-- The method call `x.toString()` on a Number. -/
def JsNumber.toString : JsNumber → String
  | .nan => "NaN"
  | .infinity negative => if negative then "-Infinity" else "Infinity"
  | .finite negative digits exponent =>
    if digits = 0 then "0"
    else
      let stripped := stripTrailingZeros (Nat.repr digits).data
      (if negative then "-" else "") ++
        formatDigits stripped.1 (exponent + stripped.2 + stripped.1.length)

mutual
/-- JavaScript values: the primitives, arrays and plain objects. -/
inductive JsVal
  | undefined
  | null
  | bool (b : Bool)
  | num (x : JsNumber)
  | bigint (n : Int)
  | str (s : String)
  | arr (items : JsItems)
  | obj (members : JsMembers)
  deriving DecidableEq
/-- The elements of an array, in index order. -/
inductive JsItems
  | nil
  | cons (head : JsVal) (tail : JsItems)
  deriving DecidableEq
/-- The own members of a plain object, in the order they were written. -/
inductive JsMembers
  | nil
  | cons (key : String) (value : JsVal) (tail : JsMembers)
  deriving DecidableEq
end

/-- The own member of that name; where a key is written twice the later
one counts, as in `JSON.parse` and in an object literal. -/
def JsMembers.find? (name : String) : JsMembers → Option JsVal
  | .nil => none
  | .cons key value tail =>
    match tail.find? name with
    | some later => some later
    | none => if key = name then some value else none

mutual
/-- The method call `v.toString()`: a `TypeError` on `undefined` and `null`,
`Number.prototype.toString` on a Number, all digits of a BigInt, the string
itself, the joined elements of an array, `[object Object]` for a plain
object, and a `TypeError` where an own member `toString` hides the
inherited method (no value of this type is callable). -/
def JsVal.toString : JsVal → Except JsError String
  | .undefined => .error .typeError
  | .null => .error .typeError
  | .bool b => .ok (if b then "true" else "false")
  | .num x => .ok x.toString
  | .bigint (Int.ofNat n) => .ok (Nat.repr n)
  | .bigint (Int.negSucc n) => .ok ("-" ++ Nat.repr (n + 1))
  | .str s => .ok s
  | .arr items => items.join
  | .obj members =>
    match members.find? "toString" with
    | some _ => .error .typeError
    | none => .ok "[object Object]"
/-- The elements of an array joined by commas as `Array.prototype.join`
does: `undefined` and `null` give the empty string. -/
def JsItems.join : JsItems → Except JsError String
  | .nil => .ok ""
  | .cons head tail =>
    let first : Except JsError String :=
      match head with
      | .undefined => .ok ""
      | .null => .ok ""
      | v => v.toString
    match first, tail with
    | .error e, _ => .error e
    | .ok h, .nil => .ok h
    | .ok h, rest =>
      match rest.join with
      | .error e => .error e
      | .ok t => .ok (h ++ "," ++ t)
end

/-- Property read `data.name` for a name that no prototype defines: a
`TypeError` on `undefined` and `null`, the own member of an object
(`undefined` when absent), `undefined` on anything else. -/
def JsVal.getMember (name : String) : JsVal → Except JsError JsVal
  | .undefined => .error .typeError
  | .null => .error .typeError
  | .obj members => .ok ((members.find? name).getD .undefined)
  | _ => .ok .undefined

/-- The Number of a natural number literal. -/
def JsVal.int (n : Nat) : JsVal :=
  .num (.finite false n 0)

/-! ## Data model -/

/-- A ticket object as delivered by the negotiator.  `applyDiscount` reads
`ticketClass` only; `ticketClass := .undefined` is a ticket without one. -/
structure Ticket where
  tokenId : String
  ticketClass : JsVal
  issuerOrigin : String
  deriving DecidableEq

/-- The `discount` state: `{ value, tokenInstance }`. -/
structure Discount where
  value : JsVal
  tokenInstance : Option Ticket
  deriving DecidableEq

/-- The three `useState` cells of `App`. -/
structure AppState where
  tokens : List Ticket
  roomTypesData : List JsVal
  discount : Discount
  deriving DecidableEq

/-- The state of the first render: `useState([])`, `useState([])`,
`useState({ value: undefined, tokenInstance: null })`. -/
def initialState : AppState :=
  { tokens := [], roomTypesData := [], discount := { value := .undefined, tokenInstance := none } }

def setTokens (tokens : List Ticket) (s : AppState) : AppState :=
  { s with tokens := tokens }

def setRoomTypesData (data : List JsVal) (s : AppState) : AppState :=
  { s with roomTypesData := data }

def setDiscount (d : Discount) (s : AppState) : AppState :=
  { s with discount := d }

/-! ## External collaborators -/

/-- What a `fetch` resolves with: the HTTP status and the body as
`response.json()` would parse it (`none`: the body is not JSON). -/
structure Response where
  status : Nat
  body : Option JsVal
  deriving DecidableEq

/-- The `ok` flag of the Fetch API.  `App` never reads it. -/
def Response.ok (r : Response) : Bool :=
  decide (200 ≤ r.status) && decide (r.status < 300)

/-- The call `response.json()`. -/
def Response.json (r : Response) : Except JsError JsVal :=
  match r.body with
  | none => .error .parseError
  | some data => .ok data

/-- The server behind `fetch`: what a request for a URL settles with. -/
abbrev Catalog := String → Except JsError Response

/-- The same server answering with other status codes: bodies and
rejections are as before. -/
def withStatus (status : String → Nat) (fetch : Catalog) : Catalog := fun url =>
  match fetch url with
  | .error e => .error e
  | .ok response => .ok { response with status := status url }

/-- The form object handed to `book`. -/
abbrev Form := List (String × String)

/-- The four operations of the `Authenticator`; the source names them in
the commented-out lines 68 to 74 only. -/
inductive AuthStep
  | getAuthenticationBlob
  | fetchChallenge
  | signChallenge
  | sendChallenge
  deriving DecidableEq

/-- Calls that leave the component. -/
inductive ExternalCall
  | fetch (url : String)
  | responseJson (response : Response)
  | consoleLog (label : String) (form : Form)
  | authenticator (step : AuthStep)
  deriving DecidableEq

/-- An asynchronous function run to completion: the state it leaves, the
external calls it made, in order, and how its promise settled. -/
structure Run where
  state : AppState
  calls : List ExternalCall
  result : Except JsError Unit

/-! ## The component's functions -/

/-- The callback handed to `negotiator.negotiate`: `tokens => setTokens(tokens)`. -/
def onNegotiated (tokens : List Ticket) (s : AppState) : AppState :=
  setTokens tokens s

/-- The continuation of `getRoomTypesData()`: `data => setRoomTypesData(data)`. -/
def onRoomTypesData (data : List JsVal) (s : AppState) : AppState :=
  setRoomTypesData data s

/-- The template literal of line 61,
`./roomTypesTicketClassDataMock${ticket.ticketClass.toString()}.json`. -/
def resourceKey (ticket : Ticket) : Except JsError String :=
  match ticket.ticketClass.toString with
  | .error e => .error e
  | .ok cls => .ok ("./roomTypesTicketClassDataMock" ++ cls ++ ".json")

/-- Lines 60 to 63, run without interleaving. -/
def applyDiscount (fetch : Catalog) (ticket : Ticket) (s : AppState) : Run :=
  match resourceKey ticket with
  | .error e => { state := s, calls := [], result := .error e }
  | .ok url =>
    match fetch url with
    | .error e => { state := s, calls := [.fetch url], result := .error e }
    | .ok response =>
      match response.json with
      | .error e =>
        { state := s, calls := [.fetch url, .responseJson response], result := .error e }
      | .ok data =>
        match data.getMember "discount" with
        | .error e =>
          { state := s, calls := [.fetch url, .responseJson response], result := .error e }
        | .ok value =>
          { state := setDiscount { value := value, tokenInstance := some ticket } s,
            calls := [.fetch url, .responseJson response],
            result := .ok () }

/-- Lines 84 to 90: `console.log('form data:', form)` and nothing else. -/
def book (form : Form) (s : AppState) : Run :=
  { state := s, calls := [.consoleLog "form data:" form], result := .ok () }

/-- The value `data.discount` that the catalog holds for a ticket: the key is
built, the request settles, the body parses, the member is read. -/
def catalogDiscount (fetch : Catalog) (ticket : Ticket) : Except JsError JsVal :=
  match resourceKey ticket with
  | .error e => .error e
  | .ok url =>
    match fetch url with
    | .error e => .error e
    | .ok response =>
      match response.json with
      | .error e => .error e
      | .ok data => data.getMember "discount"

/-! ## The event loop -/

/-- One invocation of `applyDiscount`, as the event loop sees it. -/
inductive Call
  | awaitingFetch (ticket : Ticket) (url : String)
  | awaitingJson (ticket : Ticket) (response : Response)
  | settled (result : Except JsError Unit)
  deriving DecidableEq

/-- The page at run time: the React state, every invocation of
`applyDiscount` so far in call order, and the external calls made. -/
structure Runtime where
  app : AppState
  calls : List Call
  log : List ExternalCall
  deriving DecidableEq

def initialRuntime : Runtime :=
  { app := initialState, calls := [], log := [] }

/-- What the event loop delivers to the page. -/
inductive Event
  | negotiated (tokens : List Ticket)
  | roomTypesLoaded (data : List JsVal)
  | applyDiscountCalled (ticket : Ticket)
  | resumed (i : Nat)
  | bookCalled (form : Form)
  deriving DecidableEq

/-- The synchronous head of `applyDiscount`, up to the first `await`. -/
def applyDiscountStart (ticket : Ticket) : Call × List ExternalCall :=
  match resourceKey ticket with
  | .error e => (.settled (.error e), [])
  | .ok url => (.awaitingFetch ticket url, [.fetch url])

/-- The awaited promise of a suspended invocation settles and the
invocation runs up to its next `await`, or to its end. -/
def resume (fetch : Catalog) (c : Call) (s : AppState) : Call × AppState × List ExternalCall :=
  match c with
  | .awaitingFetch ticket url =>
    match fetch url with
    | .error e => (.settled (.error e), s, [])
    | .ok response => (.awaitingJson ticket response, s, [.responseJson response])
  | .awaitingJson ticket response =>
    match response.json with
    | .error e => (.settled (.error e), s, [])
    | .ok data =>
      match data.getMember "discount" with
      | .error e => (.settled (.error e), s, [])
      | .ok value =>
        (.settled (.ok ()), setDiscount { value := value, tokenInstance := some ticket } s, [])
  | .settled r => (.settled r, s, [])

/-- One turn of the event loop. -/
def step (fetch : Catalog) (rt : Runtime) : Event → Runtime
  | .negotiated tokens => { rt with app := onNegotiated tokens rt.app }
  | .roomTypesLoaded data => { rt with app := onRoomTypesData data rt.app }
  | .applyDiscountCalled ticket =>
    let started := applyDiscountStart ticket
    { rt with calls := rt.calls ++ [started.1], log := rt.log ++ started.2 }
  | .resumed i =>
    match rt.calls[i]? with
    | none => rt
    | some c =>
      let r := resume fetch c rt.app
      { app := r.2.1, calls := rt.calls.set i r.1, log := rt.log ++ r.2.2 }
  | .bookCalled form =>
    { rt with app := (book form rt.app).state, log := rt.log ++ (book form rt.app).calls }

/-- The page after a sequence of events. -/
def run (fetch : Catalog) (events : List Event) (rt : Runtime) : Runtime :=
  events.foldl (step fetch) rt

/-! ## Notions used to state the claims -/

/-- The catalog holds a document for the ticket's class: the request for
the ticket's resource key is answered with a success status. -/
def catalogHasEntry (fetch : Catalog) (ticket : Ticket) : Bool :=
  match resourceKey ticket with
  | .error _ => false
  | .ok url =>
    match fetch url with
    | .error _ => false
    | .ok response => response.ok

/-- The four steps of one attestation attempt, in the order of lines 68 to 74. -/
def completeAttestation : List ExternalCall :=
  [.authenticator .getAuthenticationBlob, .authenticator .fetchChallenge,
   .authenticator .signChallenge, .authenticator .sendChallenge]

/-- The offer held in the `discount` state is stale with respect to the
ticket of the active attestation: it is bound to some other ticket. -/
def staleOffer (active : Option Ticket) (d : Discount) : Bool :=
  match d.tokenInstance with
  | none => false
  | some bound => decide (some bound ≠ active)

/-- A Number from 0 to 100. -/
def JsNumber.inPercentRange : JsNumber → Bool
  | .finite negative digits exponent =>
    (digits == 0 || !negative) &&
      (if 0 ≤ exponent then decide (digits * 10 ^ exponent.toNat ≤ 100)
       else decide (digits ≤ 100 * 10 ^ (-exponent).toNat))
  | _ => false

/-- A percentage in the sense of the data model: a Number from 0 to 100. -/
def validPercentage : JsVal → Bool
  | .num x => x.inPercentRange
  | _ => false

/-- What holds of a suspended invocation: its ticket was passed to
`applyDiscount`, its URL is the ticket's resource key and, once the request
has settled, its response is what the catalog answers under that key. -/
def Call.Sound (fetch : Catalog) (called : Ticket → Prop) : Call → Prop
  | .awaitingFetch ticket url => called ticket ∧ resourceKey ticket = .ok url
  | .awaitingJson ticket response =>
    called ticket ∧ ∃ url, resourceKey ticket = .ok url ∧ fetch url = .ok response
  | .settled _ => True

/-- The shape of the `discount` state: the initial one, or a catalog value
together with the ticket it was looked up for. -/
def Discount.Sound (fetch : Catalog) (called : Ticket → Prop) (d : Discount) : Prop :=
  d = initialState.discount ∨
    ∃ t v, called t ∧ catalogDiscount fetch t = .ok v ∧ d = { value := v, tokenInstance := some t }

/-- The invariant of the event loop. -/
def Runtime.Sound (fetch : Catalog) (called : Ticket → Prop) (rt : Runtime) : Prop :=
  Discount.Sound fetch called rt.app.discount ∧ ∀ c ∈ rt.calls, Call.Sound fetch called c

/-- Two invocations of `applyDiscount`, the second made after `k` resumptions
of the first, followed by the resumptions `order` (0 is the first invocation,
1 the second). -/
def raceEvents (t1 t2 : Ticket) (k : Nat) (order : List Nat) : List Event :=
  .applyDiscountCalled t1 ::
    (List.replicate k (.resumed 0) ++ .applyDiscountCalled t2 :: order.map .resumed)

/-! ## Sample data -/

def ticketA1 : Ticket :=
  { tokenId := "A1", ticketClass := .str "speaker",
    issuerOrigin := "https://devcontickets.herokuapp.com/outlet/" }

def ticketA2 : Ticket :=
  { tokenId := "A2", ticketClass := .str "general",
    issuerOrigin := "https://devcontickets.herokuapp.com/outlet/" }

def ticketB7 : Ticket :=
  { tokenId := "B7", ticketClass := .str "speaker",
    issuerOrigin := "https://devcontickets.herokuapp.com/outlet/" }

def ticketS1 : Ticket :=
  { tokenId := "S1", ticketClass := .str "sponsor",
    issuerOrigin := "https://devcontickets.herokuapp.com/outlet/" }

def ticketVip : Ticket :=
  { tokenId := "V1", ticketClass := .str "vip",
    issuerOrigin := "https://devcontickets.herokuapp.com/outlet/" }

def ticketT1 : Ticket :=
  { tokenId := "T1", ticketClass := .str "student",
    issuerOrigin := "https://devcontickets.herokuapp.com/outlet/" }

def ticketP1 : Ticket :=
  { tokenId := "P1", ticketClass := .str "press",
    issuerOrigin := "https://devcontickets.herokuapp.com/outlet/" }

def ticketF1 : Ticket :=
  { tokenId := "F1", ticketClass := .str "staff",
    issuerOrigin := "https://devcontickets.herokuapp.com/outlet/" }

def ticketC1 : Ticket :=
  { tokenId := "C1", ticketClass := .str "crew",
    issuerOrigin := "https://devcontickets.herokuapp.com/outlet/" }

/-- A ticket whose class is the Number 0. -/
def ticketN0 : Ticket :=
  { tokenId := "N0", ticketClass := .int 0,
    issuerOrigin := "https://devcontickets.herokuapp.com/outlet/" }

/-- A ticket whose class is the Number 1e21. -/
def ticketN21 : Ticket :=
  { tokenId := "N21", ticketClass := .num (.finite false 1 21),
    issuerOrigin := "https://devcontickets.herokuapp.com/outlet/" }

/-- A ticket whose class is the BigInt of the same magnitude. -/
def ticketB21 : Ticket :=
  { tokenId := "B21", ticketClass := .bigint (10 ^ 21),
    issuerOrigin := "https://devcontickets.herokuapp.com/outlet/" }

/-- A ticket object without a `ticketClass`. -/
def ticketU : Ticket :=
  { tokenId := "U", ticketClass := .undefined,
    issuerOrigin := "https://devcontickets.herokuapp.com/outlet/" }

/-- The catalog document whose only member is `discount`. -/
def discountDocument (value : JsVal) : JsVal :=
  .obj (.cons "discount" value .nil)

/-- A catalog with documents for the classes `speaker` (20), `general` (5),
`sponsor` (150), `student` (12.5), `press` (-5), `staff` (the string 20) and
`crew` (an object).  Every other URL is answered `404` with a JSON body, an
object whose only member is `error`. -/
def sampleCatalog : Catalog := fun url =>
  if url = "./roomTypesTicketClassDataMockspeaker.json" then
    .ok { status := 200, body := some (discountDocument (.int 20)) }
  else if url = "./roomTypesTicketClassDataMockgeneral.json" then
    .ok { status := 200, body := some (discountDocument (.int 5)) }
  else if url = "./roomTypesTicketClassDataMocksponsor.json" then
    .ok { status := 200, body := some (discountDocument (.int 150)) }
  else if url = "./roomTypesTicketClassDataMockstudent.json" then
    .ok { status := 200, body := some (discountDocument (.num (.finite false 125 (-1)))) }
  else if url = "./roomTypesTicketClassDataMockpress.json" then
    .ok { status := 200, body := some (discountDocument (.num (.finite true 5 0))) }
  else if url = "./roomTypesTicketClassDataMockstaff.json" then
    .ok { status := 200, body := some (discountDocument (.str "20")) }
  else if url = "./roomTypesTicketClassDataMockcrew.json" then
    .ok { status := 200,
          body := some (discountDocument (.obj (.cons "percent" (.int 10) .nil))) }
  else
    .ok { status := 404, body := some (.obj (.cons "error" (.str "Not Found") .nil)) }

/-- A static file server: the `speaker` document, and `404` with an HTML
body for every other URL. -/
def staticCatalog : Catalog := fun url =>
  if url = "./roomTypesTicketClassDataMockspeaker.json" then
    .ok { status := 200, body := some (discountDocument (.int 20)) }
  else
    .ok { status := 404, body := none }

/-- The page after ticket `A1` earned its discount and a later negotiation
delivered ticket `A2` only. -/
def renegotiatedState : AppState :=
  { tokens := [ticketA2], roomTypesData := [],
    discount := { value := .int 20, tokenInstance := some ticketA1 } }

def sampleForm : Form := [("name", "Ada"), ("nights", "2")]

/-! ## `applyDiscount` run to completion -/

theorem catalogDiscount_ok_iff (fetch : Catalog) (t : Ticket) (d : JsVal) :
    catalogDiscount fetch t = .ok d ↔
      ∃ url response data, resourceKey t = .ok url ∧ fetch url = .ok response ∧
        response.json = .ok data ∧ data.getMember "discount" = .ok d := by
  unfold catalogDiscount
  constructor
  · intro h
    split at h
    · simp at h
    · rename_i url hk
      split at h
      · simp at h
      · rename_i response hf
        split at h
        · simp at h
        · rename_i data hj
          exact ⟨url, response, data, hk, hf, hj, h⟩
  · rintro ⟨url, response, data, hk, hf, hj, hd⟩
    simp [hk, hf, hj, hd]

theorem catalogDiscount_error_iff (fetch : Catalog) (t : Ticket) (e : JsError) :
    catalogDiscount fetch t = .error e ↔
      resourceKey t = .error e ∨
        ∃ url, resourceKey t = .ok url ∧
          (fetch url = .error e ∨
            ∃ response, fetch url = .ok response ∧
              (response.json = .error e ∨
                ∃ data, response.json = .ok data ∧ data.getMember "discount" = .error e)) := by
  unfold catalogDiscount
  cases hk : resourceKey t with
  | error e1 => simp
  | ok url =>
    cases hf : fetch url with
    | error e1 => simp [hf]
    | ok response =>
      cases hj : response.json with
      | error e1 => simp [hf, hj]
      | ok data => simp [hf, hj]

theorem applyDiscount_of_ok (fetch : Catalog) (t : Ticket) (s : AppState) (d : JsVal)
    (h : catalogDiscount fetch t = .ok d) :
    (applyDiscount fetch t s).state = setDiscount { value := d, tokenInstance := some t } s ∧
      (applyDiscount fetch t s).result = .ok () := by
  obtain ⟨url, response, data, hk, hf, hj, hd⟩ := (catalogDiscount_ok_iff fetch t d).1 h
  simp [applyDiscount, hk, hf, hj, hd]

theorem applyDiscount_of_error (fetch : Catalog) (t : Ticket) (s : AppState) (e : JsError)
    (h : catalogDiscount fetch t = .error e) :
    (applyDiscount fetch t s).state = s ∧ (applyDiscount fetch t s).result = .error e := by
  unfold catalogDiscount at h
  unfold applyDiscount
  split at h
  · rename_i e1 hk
    simp only [Except.error.injEq] at h
    simp [hk, h]
  · rename_i url hk
    split at h
    · rename_i e1 hf
      simp only [Except.error.injEq] at h
      simp [hk, hf, h]
    · rename_i response hf
      split at h
      · rename_i e1 hj
        simp only [Except.error.injEq] at h
        simp [hk, hf, hj, h]
      · rename_i data hj
        simp [hk, hf, hj, h]

theorem applyDiscount_result_ok (fetch : Catalog) (t : Ticket) (s : AppState)
    (h : (applyDiscount fetch t s).result = .ok ()) :
    ∃ d, catalogDiscount fetch t = .ok d := by
  cases hc : catalogDiscount fetch t with
  | ok d => exact ⟨d, rfl⟩
  | error e =>
    have := (applyDiscount_of_error fetch t s e hc).2
    rw [this] at h
    simp at h

theorem applyDiscount_calls (fetch : Catalog) (t : Ticket) (s : AppState) :
    ∀ c ∈ (applyDiscount fetch t s).calls,
      (∃ url, c = .fetch url) ∨ (∃ response, c = .responseJson response) := by
  intro c hc
  unfold applyDiscount at hc
  split at hc
  · simp at hc
  · split at hc
    · simp at hc; exact Or.inl ⟨_, hc⟩
    · split at hc
      · simp at hc
        rcases hc with hc | hc
        · exact Or.inl ⟨_, hc⟩
        · exact Or.inr ⟨_, hc⟩
      · split at hc <;>
        · simp at hc
          rcases hc with hc | hc
          · exact Or.inl ⟨_, hc⟩
          · exact Or.inr ⟨_, hc⟩

theorem applyDiscount_of_lookup (fetch : Catalog) (t : Ticket) (s : AppState)
    (url : String) (response : Response) (data d : JsVal)
    (hk : resourceKey t = .ok url) (hf : fetch url = .ok response)
    (hj : response.json = .ok data) (hd : data.getMember "discount" = .ok d) :
    (applyDiscount fetch t s).state = setDiscount { value := d, tokenInstance := some t } s ∧
      (applyDiscount fetch t s).calls = [.fetch url, .responseJson response] ∧
      (applyDiscount fetch t s).result = .ok () := by
  simp [applyDiscount, hk, hf, hj, hd]

theorem catalogDiscount_withStatus (status : String → Nat) (fetch : Catalog) (t : Ticket) :
    catalogDiscount (withStatus status fetch) t = catalogDiscount fetch t := by
  unfold catalogDiscount
  cases hk : resourceKey t with
  | error e => rfl
  | ok url =>
    simp only
    unfold withStatus
    cases hf : fetch url with
    | error e => rfl
    | ok response => rfl

theorem applyDiscount_eq_of_catalogDiscount_eq (f g : Catalog) (t : Ticket) (s : AppState)
    (h : catalogDiscount f t = catalogDiscount g t) :
    (applyDiscount f t s).result = (applyDiscount g t s).result ∧
      (applyDiscount f t s).state = (applyDiscount g t s).state := by
  cases hc : catalogDiscount g t with
  | ok d =>
    rw [(applyDiscount_of_ok f t s d (h.trans hc)).1, (applyDiscount_of_ok f t s d (h.trans hc)).2,
      (applyDiscount_of_ok g t s d hc).1, (applyDiscount_of_ok g t s d hc).2]
    exact ⟨rfl, rfl⟩
  | error e =>
    rw [(applyDiscount_of_error f t s e (h.trans hc)).1,
      (applyDiscount_of_error f t s e (h.trans hc)).2,
      (applyDiscount_of_error g t s e hc).1, (applyDiscount_of_error g t s e hc).2]
    exact ⟨rfl, rfl⟩

/-- The resource keys of sample tickets: a string class, the Number 0, the
Number 1e21 in exponent form, the BigInt of that magnitude in full, and the
`TypeError` of a ticket without a class. -/
theorem resourceKey_samples :
    resourceKey ticketA1 = .ok "./roomTypesTicketClassDataMockspeaker.json" ∧
      resourceKey ticketN0 = .ok "./roomTypesTicketClassDataMock0.json" ∧
      resourceKey ticketN21 = .ok "./roomTypesTicketClassDataMock1e+21.json" ∧
      resourceKey ticketB21
        = .ok "./roomTypesTicketClassDataMock1000000000000000000000.json" ∧
      resourceKey ticketU = .error .typeError := by
  decide

/-- What `applyDiscount` stores for sample catalog documents: a negative
number, a string and an object are stored as they stand. -/
theorem applyDiscount_stores_samples :
    (applyDiscount sampleCatalog ticketP1 initialState).state.discount.value
        = .num (.finite true 5 0) ∧
      (applyDiscount sampleCatalog ticketF1 initialState).state.discount.value = .str "20" ∧
      (applyDiscount sampleCatalog ticketC1 initialState).state.discount.value
        = .obj (.cons "percent" (.int 10) .nil) := by
  decide

/-- C1: whenever `applyDiscount(t)` completes successfully, the discount
state it leaves is bound to the ticket passed in: `tokenInstance` is `t`, so
its token id is the id of `t`. -/
theorem applyDiscount_binds_ticket (fetch : Catalog) (t : Ticket) (s : AppState)
    (h : (applyDiscount fetch t s).result = .ok ()) :
    (applyDiscount fetch t s).state.discount.tokenInstance = some t ∧
      (applyDiscount fetch t s).state.discount.tokenInstance.map Ticket.tokenId
        = some t.tokenId := by
  obtain ⟨d, hd⟩ := applyDiscount_result_ok fetch t s h
  rw [(applyDiscount_of_ok fetch t s d hd).1]
  exact ⟨rfl, rfl⟩

theorem applyDiscount_binds_ticket_witness :
    (applyDiscount sampleCatalog ticketA1 initialState).result = .ok () ∧
      (applyDiscount sampleCatalog ticketA1 initialState).state.discount.tokenInstance
        = some ticketA1 :=
  ⟨by decide, (applyDiscount_binds_ticket sampleCatalog ticketA1 initialState (by decide)).1⟩

/-- C2, as stated, fails: the class `vip` has no entry in the catalog (the
request is answered `404`), the body of the answer is JSON, and
`applyDiscount` completes successfully with the absent value `undefined`
bound to the ticket. -/
theorem applyDiscount_missing_entry_counterexample :
    catalogHasEntry sampleCatalog ticketVip = false ∧
      (applyDiscount sampleCatalog ticketVip initialState).result = .ok () ∧
      (applyDiscount sampleCatalog ticketVip initialState).state.discount
        = { value := .undefined, tokenInstance := some ticketVip } := by
  decide

/-- C2, amended: when the catalog lookup for a ticket fails (the key cannot
be built, the request rejects, the body is not JSON, or the document is
`null`), `applyDiscount` rejects with that error and leaves the state as it
was: no discount, `0` or other, is set.  The status of the response is never
read: a catalog that answers with other status codes, bodies unchanged,
gives the same result and the same state. -/
theorem applyDiscount_lookup_failure (fetch : Catalog) (t : Ticket) (s : AppState)
    (status : String → Nat) :
    (∀ e,
        (resourceKey t = .error e ∨
          ∃ url, resourceKey t = .ok url ∧
            (fetch url = .error e ∨
              ∃ response, fetch url = .ok response ∧
                (response.json = .error e ∨
                  ∃ data, response.json = .ok data ∧
                    data.getMember "discount" = .error e))) →
        (applyDiscount fetch t s).result = .error e ∧ (applyDiscount fetch t s).state = s) ∧
      (applyDiscount (withStatus status fetch) t s).result = (applyDiscount fetch t s).result ∧
      (applyDiscount (withStatus status fetch) t s).state = (applyDiscount fetch t s).state := by
  refine ⟨?_, applyDiscount_eq_of_catalogDiscount_eq _ _ t s
    (catalogDiscount_withStatus status fetch t)⟩
  intro e he
  have h := (catalogDiscount_error_iff fetch t e).2 he
  exact ⟨(applyDiscount_of_error fetch t s e h).2, (applyDiscount_of_error fetch t s e h).1⟩

theorem applyDiscount_lookup_failure_witness :
    ((applyDiscount staticCatalog ticketVip renegotiatedState).result = .error .parseError ∧
        (applyDiscount staticCatalog ticketVip renegotiatedState).state = renegotiatedState) ∧
      (applyDiscount (withStatus (fun _ => 200) staticCatalog) ticketVip renegotiatedState).result
        = (applyDiscount staticCatalog ticketVip renegotiatedState).result :=
  ⟨(applyDiscount_lookup_failure staticCatalog ticketVip renegotiatedState (fun _ => 200)).1
      .parseError
      (Or.inr ⟨"./roomTypesTicketClassDataMockvip.json", by decide,
        Or.inr ⟨{ status := 404, body := none }, by decide, Or.inl (by decide)⟩⟩),
    (applyDiscount_lookup_failure staticCatalog ticketVip renegotiatedState (fun _ => 200)).2.1⟩

/-- C3, as stated, fails: the offer in the state is bound to ticket `A1`
while the active ticket is `A2`, and `book` completes successfully. -/
theorem book_stale_offer_counterexample :
    staleOffer (some ticketA2) renegotiatedState.discount = true ∧
      (book sampleForm renegotiatedState).result = .ok () := by
  decide

/-- C3, amended: for every form and every state, whatever offer it holds,
`book` logs the form, makes no other external call, in particular no
checkout call, changes no state and completes successfully. -/
theorem book_only_logs (form : Form) (s : AppState) :
    (book form s).calls = [.consoleLog "form data:" form] ∧
      (book form s).state = s ∧ (book form s).result = .ok () :=
  ⟨rfl, rfl, rfl⟩

/-- C4, as stated, fails: `applyDiscount` sets a discount bound to ticket
`A1` after a `fetch` and a `response.json()` only; the four steps of an
attestation attempt are not among its calls. -/
theorem applyDiscount_unattested_counterexample :
    (applyDiscount sampleCatalog ticketA1 initialState).state.discount
        = { value := .int 20, tokenInstance := some ticketA1 } ∧
      (applyDiscount sampleCatalog ticketA1 initialState).calls
        = [.fetch "./roomTypesTicketClassDataMockspeaker.json",
           .responseJson { status := 200, body := some (discountDocument (.int 20)) }] ∧
      ¬ completeAttestation.Sublist (applyDiscount sampleCatalog ticketA1 initialState).calls := by
  decide

/-- C4, amended: the only external calls of `applyDiscount(t)` are the
catalog `fetch` and `response.json()`, so it makes no `Authenticator` call
at all; and once the catalog lookup yields a value it has made exactly these
two calls and has set the discount state bound to `t`, without any
attestation. -/
theorem applyDiscount_no_attestation (fetch : Catalog) (t : Ticket) (s : AppState) :
    (∀ c ∈ (applyDiscount fetch t s).calls,
        (∃ url, c = .fetch url) ∨ (∃ response, c = .responseJson response)) ∧
      (∀ a, ExternalCall.authenticator a ∉ (applyDiscount fetch t s).calls) ∧
      (∀ url response data d, resourceKey t = .ok url → fetch url = .ok response →
        response.json = .ok data → data.getMember "discount" = .ok d →
        (applyDiscount fetch t s).calls = [.fetch url, .responseJson response] ∧
          (applyDiscount fetch t s).result = .ok () ∧
          (applyDiscount fetch t s).state.discount
            = { value := d, tokenInstance := some t }) := by
  refine ⟨applyDiscount_calls fetch t s, ?_, ?_⟩
  · intro a ha
    rcases applyDiscount_calls fetch t s _ ha with ⟨url, h⟩ | ⟨response, h⟩ <;> cases h
  · intro url response data d hk hf hj hd
    have h := applyDiscount_of_lookup fetch t s url response data d hk hf hj hd
    refine ⟨h.2.1, h.2.2, ?_⟩
    rw [h.1]
    rfl

theorem applyDiscount_no_attestation_witness :
    (applyDiscount sampleCatalog ticketA2 initialState).calls
        = [.fetch "./roomTypesTicketClassDataMockgeneral.json",
           .responseJson { status := 200, body := some (discountDocument (.int 5)) }] ∧
      (applyDiscount sampleCatalog ticketA2 initialState).result = .ok () ∧
      (applyDiscount sampleCatalog ticketA2 initialState).state.discount
        = { value := .int 5, tokenInstance := some ticketA2 } :=
  (applyDiscount_no_attestation sampleCatalog ticketA2 initialState).2.2
    "./roomTypesTicketClassDataMockgeneral.json"
    { status := 200, body := some (discountDocument (.int 5)) } (discountDocument (.int 5))
    (.int 5) (by decide) (by decide) (by decide) (by decide)

/-- C5: the resource key is `./roomTypesTicketClassDataMock`, the class
rendered as a string, `.json`; it depends on the ticket through
`ticketClass` only.  Two tickets of the same class are looked up under the
same key and against the same catalog they settle alike.  Whenever the
catalog holds a document under that key, `applyDiscount` fetches exactly that
key for both tickets, completes successfully for both and sets for both the
`discount` member of that document, whatever their token ids. -/
theorem applyDiscount_keyed_by_ticketClass (fetch : Catalog) (t1 t2 : Ticket)
    (s1 s2 : AppState) (h : t1.ticketClass = t2.ticketClass) :
    resourceKey t1 = resourceKey t2 ∧
      (∀ cls, t1.ticketClass.toString = .ok cls →
        resourceKey t1 = .ok ("./roomTypesTicketClassDataMock" ++ cls ++ ".json")) ∧
      (applyDiscount fetch t1 s1).result = (applyDiscount fetch t2 s2).result ∧
      ((applyDiscount fetch t1 s1).result = .ok () →
        (applyDiscount fetch t1 s1).state.discount.value
            = (applyDiscount fetch t2 s2).state.discount.value ∧
          ∃ url response data, resourceKey t1 = .ok url ∧ fetch url = .ok response ∧
            response.json = .ok data ∧
            data.getMember "discount" = .ok (applyDiscount fetch t1 s1).state.discount.value) ∧
      (∀ cls response data d, t1.ticketClass.toString = .ok cls →
        fetch ("./roomTypesTicketClassDataMock" ++ cls ++ ".json") = .ok response →
        response.json = .ok data → data.getMember "discount" = .ok d →
        (applyDiscount fetch t1 s1).calls
            = [.fetch ("./roomTypesTicketClassDataMock" ++ cls ++ ".json"),
               .responseJson response] ∧
          (applyDiscount fetch t2 s2).calls
            = [.fetch ("./roomTypesTicketClassDataMock" ++ cls ++ ".json"),
               .responseJson response] ∧
          (applyDiscount fetch t1 s1).result = .ok () ∧
          (applyDiscount fetch t2 s2).result = .ok () ∧
          (applyDiscount fetch t1 s1).state.discount
            = { value := d, tokenInstance := some t1 } ∧
          (applyDiscount fetch t2 s2).state.discount
            = { value := d, tokenInstance := some t2 }) := by
  have hkey : resourceKey t1 = resourceKey t2 := by simp [resourceKey, h]
  have hcat : catalogDiscount fetch t1 = catalogDiscount fetch t2 := by
    simp [catalogDiscount, hkey]
  refine ⟨hkey, ?_, ?_, ?_, ?_⟩
  · intro cls hcls
    simp [resourceKey, hcls]
  · cases hc : catalogDiscount fetch t1 with
    | ok d =>
      rw [(applyDiscount_of_ok fetch t1 s1 d hc).2,
        (applyDiscount_of_ok fetch t2 s2 d (hcat ▸ hc)).2]
    | error e =>
      rw [(applyDiscount_of_error fetch t1 s1 e hc).2,
        (applyDiscount_of_error fetch t2 s2 e (hcat ▸ hc)).2]
  · intro hok
    obtain ⟨d, hd⟩ := applyDiscount_result_ok fetch t1 s1 hok
    rw [(applyDiscount_of_ok fetch t1 s1 d hd).1,
      (applyDiscount_of_ok fetch t2 s2 d (hcat ▸ hd)).1]
    exact ⟨rfl, (catalogDiscount_ok_iff fetch t1 d).1 hd⟩
  · intro cls response data d hcls hf hj hd
    have hk1 : resourceKey t1 = .ok ("./roomTypesTicketClassDataMock" ++ cls ++ ".json") := by
      simp [resourceKey, hcls]
    have hk2 : resourceKey t2 = .ok ("./roomTypesTicketClassDataMock" ++ cls ++ ".json") :=
      hkey ▸ hk1
    have r1 := applyDiscount_of_lookup fetch t1 s1 _ response data d hk1 hf hj hd
    have r2 := applyDiscount_of_lookup fetch t2 s2 _ response data d hk2 hf hj hd
    refine ⟨r1.2.1, r2.2.1, r1.2.2, r2.2.2, ?_, ?_⟩
    · rw [r1.1]; rfl
    · rw [r2.1]; rfl

theorem applyDiscount_keyed_by_ticketClass_witness :
    (ticketA1.ticketClass = ticketB7.ticketClass ∧ ticketA1.tokenId ≠ ticketB7.tokenId) ∧
      resourceKey ticketA1 = resourceKey ticketB7 ∧
      (applyDiscount sampleCatalog ticketA1 initialState).calls
        = [.fetch ("./roomTypesTicketClassDataMock" ++ "speaker" ++ ".json"),
           .responseJson { status := 200, body := some (discountDocument (.int 20)) }] ∧
      (applyDiscount sampleCatalog ticketB7 renegotiatedState).calls
        = [.fetch ("./roomTypesTicketClassDataMock" ++ "speaker" ++ ".json"),
           .responseJson { status := 200, body := some (discountDocument (.int 20)) }] ∧
      (applyDiscount sampleCatalog ticketA1 initialState).result = .ok () ∧
      (applyDiscount sampleCatalog ticketB7 renegotiatedState).result = .ok () ∧
      (applyDiscount sampleCatalog ticketA1 initialState).state.discount
        = { value := .int 20, tokenInstance := some ticketA1 } ∧
      (applyDiscount sampleCatalog ticketB7 renegotiatedState).state.discount
        = { value := .int 20, tokenInstance := some ticketB7 } :=
  ⟨⟨by decide, by decide⟩,
    (applyDiscount_keyed_by_ticketClass sampleCatalog ticketA1 ticketB7 initialState
      renegotiatedState (by decide)).1,
    (applyDiscount_keyed_by_ticketClass sampleCatalog ticketA1 ticketB7 initialState
      renegotiatedState (by decide)).2.2.2.2 "speaker"
      { status := 200, body := some (discountDocument (.int 20)) } (discountDocument (.int 20))
      (.int 20) (by decide) (by decide) (by decide) (by decide)⟩

/-- C7: after the negotiation callback has received the list `L`, the
`tokens` state is `L`, whatever it held before, and room types and discount
are as they were; in the event loop the suspended invocations are untouched
as well. -/
theorem onNegotiated_replaces_tokens (L : List Ticket) (s : AppState) (fetch : Catalog)
    (rt : Runtime) :
    (onNegotiated L s).tokens = L ∧
      (onNegotiated L s).roomTypesData = s.roomTypesData ∧
      (onNegotiated L s).discount = s.discount ∧
      (step fetch rt (.negotiated L)).app = onNegotiated L rt.app ∧
      (step fetch rt (.negotiated L)).calls = rt.calls :=
  ⟨rfl, rfl, rfl, rfl, rfl⟩

/-- C8, as stated, fails: the catalog document for the class `sponsor`
holds the discount `150`, and that is the percentage `applyDiscount` sets. -/
theorem applyDiscount_percentage_counterexample :
    (applyDiscount sampleCatalog ticketS1 initialState).result = .ok () ∧
      (applyDiscount sampleCatalog ticketS1 initialState).state.discount.value = .int 150 ∧
      validPercentage (applyDiscount sampleCatalog ticketS1 initialState).state.discount.value
        = false := by
  decide

/-- C8, amended: for every ticket and every catalog response that yields a
document, the percentage `applyDiscount` sets is the `discount` member of the
document as it stands, whatever it is, neither validated nor clamped; so it
lies between 0 and 100 exactly when the catalog's value does. -/
theorem applyDiscount_percentage_from_catalog (fetch : Catalog) (t : Ticket) (s : AppState)
    (url : String) (response : Response) (data d : JsVal)
    (hk : resourceKey t = .ok url) (hf : fetch url = .ok response)
    (hj : response.json = .ok data) (hd : data.getMember "discount" = .ok d) :
    (applyDiscount fetch t s).state.discount.value = d ∧
      validPercentage (applyDiscount fetch t s).state.discount.value = validPercentage d := by
  rw [(applyDiscount_of_lookup fetch t s url response data d hk hf hj hd).1]
  exact ⟨rfl, rfl⟩

theorem applyDiscount_percentage_from_catalog_witness :
    validPercentage (.num (.finite false 125 (-1))) = true ∧
      (applyDiscount sampleCatalog ticketT1 initialState).state.discount.value
        = .num (.finite false 125 (-1)) ∧
      validPercentage (applyDiscount sampleCatalog ticketT1 initialState).state.discount.value
        = validPercentage (.num (.finite false 125 (-1))) :=
  ⟨by decide,
    applyDiscount_percentage_from_catalog sampleCatalog ticketT1 initialState
      "./roomTypesTicketClassDataMockstudent.json"
      { status := 200, body := some (discountDocument (.num (.finite false 125 (-1)))) }
      (discountDocument (.num (.finite false 125 (-1)))) (.num (.finite false 125 (-1)))
      (by decide) (by decide) (by decide) (by decide)⟩

/-! ## The event loop -/

theorem applyDiscount_as_events (fetch : Catalog) (t : Ticket) (rt : Runtime) :
    (run fetch [.applyDiscountCalled t, .resumed rt.calls.length, .resumed rt.calls.length] rt).app
        = (applyDiscount fetch t rt.app).state ∧
      (run fetch [.applyDiscountCalled t, .resumed rt.calls.length, .resumed rt.calls.length] rt).log
        = rt.log ++ (applyDiscount fetch t rt.app).calls := by
  simp only [run, List.foldl, step, applyDiscountStart, applyDiscount]
  cases hk : resourceKey t with
  | error e => simp [resume]
  | ok url =>
    cases hf : fetch url with
    | error e => simp [resume, hf]
    | ok response =>
      cases hj : response.json with
      | error e => simp [resume, hf, hj]
      | ok data =>
        cases hd : data.getMember "discount" with
        | error e => simp [resume, hf, hj, hd]
        | ok v => simp [resume, hf, hj, hd]

theorem Discount.Sound.mono {fetch : Catalog} {P Q : Ticket → Prop} (hPQ : ∀ t, P t → Q t)
    {d : Discount} (h : Discount.Sound fetch P d) : Discount.Sound fetch Q d := by
  rcases h with h | ⟨t, v, ht, hv, hd⟩
  · exact Or.inl h
  · exact Or.inr ⟨t, v, hPQ t ht, hv, hd⟩

theorem resume_sound (fetch : Catalog) (P : Ticket → Prop) (c : Call) (s : AppState)
    (hc : Call.Sound fetch P c) (hs : Discount.Sound fetch P s.discount) :
    Call.Sound fetch P (resume fetch c s).1 ∧
      Discount.Sound fetch P (resume fetch c s).2.1.discount := by
  cases c with
  | awaitingFetch ticket url =>
    obtain ⟨hcalled, hkey⟩ := hc
    cases hf : fetch url with
    | error e =>
      simp only [resume, hf]
      exact ⟨trivial, hs⟩
    | ok response =>
      simp only [resume, hf]
      exact ⟨⟨hcalled, url, hkey, hf⟩, hs⟩
  | awaitingJson ticket response =>
    obtain ⟨hcalled, url, hkey, hf⟩ := hc
    cases hj : response.json with
    | error e =>
      simp only [resume, hj]
      exact ⟨trivial, hs⟩
    | ok data =>
      cases hd : data.getMember "discount" with
      | error e =>
        simp only [resume, hj, hd]
        exact ⟨trivial, hs⟩
      | ok v =>
        simp only [resume, hj, hd]
        refine ⟨trivial, Or.inr ⟨ticket, v, hcalled, ?_, rfl⟩⟩
        exact (catalogDiscount_ok_iff fetch ticket v).2 ⟨url, response, data, hkey, hf, hj, hd⟩
  | settled r => exact ⟨trivial, hs⟩

theorem step_sound (fetch : Catalog) (P : Ticket → Prop) (rt : Runtime) (ev : Event)
    (hev : ∀ t, ev = .applyDiscountCalled t → P t) (h : Runtime.Sound fetch P rt) :
    Runtime.Sound fetch P (step fetch rt ev) := by
  obtain ⟨hd, hcalls⟩ := h
  cases ev with
  | negotiated tokens => exact ⟨hd, hcalls⟩
  | roomTypesLoaded data => exact ⟨hd, hcalls⟩
  | applyDiscountCalled ticket =>
    refine ⟨hd, ?_⟩
    intro c hc
    simp only [step, List.mem_append, List.mem_singleton] at hc
    rcases hc with hc | hc
    · exact hcalls c hc
    · subst hc
      cases hk : resourceKey ticket with
      | error e =>
        simp only [applyDiscountStart, hk]
        trivial
      | ok url =>
        simp only [applyDiscountStart, hk]
        exact ⟨hev ticket rfl, hk⟩
  | resumed i =>
    cases hget : rt.calls[i]? with
    | none =>
      simp only [step, hget]
      exact ⟨hd, hcalls⟩
    | some c =>
      have hc : Call.Sound fetch P c := hcalls c (List.getElem?_mem hget)
      have hr := resume_sound fetch P c rt.app hc hd
      simp only [step, hget]
      refine ⟨hr.2, ?_⟩
      intro c' hc'
      rcases List.mem_or_eq_of_mem_set hc' with h' | h'
      · exact hcalls c' h'
      · subst h'
        exact hr.1
  | bookCalled form => exact ⟨hd, hcalls⟩

theorem run_sound (fetch : Catalog) (P : Ticket → Prop) (events : List Event) :
    ∀ rt : Runtime, (∀ t, Event.applyDiscountCalled t ∈ events → P t) →
      Runtime.Sound fetch P rt → Runtime.Sound fetch P (run fetch events rt) := by
  induction events with
  | nil => intro rt _ h; exact h
  | cons ev rest ih =>
    intro rt hP h
    have h1 : Runtime.Sound fetch P (step fetch rt ev) :=
      step_sound fetch P rt ev (fun t ht => hP t (ht ▸ List.mem_cons_self _ _)) h
    exact ih (step fetch rt ev) (fun t ht => hP t (List.mem_cons_of_mem _ ht)) h1

/-- C10: in every state reached from the initial one by negotiation
callbacks, room-data loads, invocations and resumptions of `applyDiscount`
and `book` calls, the discount state is the initial one or the pair of a
ticket that `applyDiscount` was called with and the value the catalog holds
for it, both written at once; and `book` changes neither the state cells nor
the suspended invocations. -/
theorem reachable_discount_invariant (fetch : Catalog) (events : List Event) :
    ((run fetch events initialRuntime).app.discount
          = { value := .undefined, tokenInstance := none } ∨
        ∃ t d, Event.applyDiscountCalled t ∈ events ∧ catalogDiscount fetch t = .ok d ∧
          (run fetch events initialRuntime).app.discount
            = { value := d, tokenInstance := some t }) ∧
      ∀ (rt : Runtime) (form : Form),
        (step fetch rt (.bookCalled form)).app = rt.app ∧
          (step fetch rt (.bookCalled form)).calls = rt.calls := by
  refine ⟨?_, fun rt form => ⟨rfl, rfl⟩⟩
  have h := run_sound fetch (fun t => Event.applyDiscountCalled t ∈ events) events
    initialRuntime (fun t ht => ht) ⟨Or.inl rfl, by intro c hc; cases hc⟩
  exact h.1

/-! ## Two invocations in flight -/

theorem perm_two_each (l : List Nat) (h : l.Perm [0, 0, 1, 1]) :
    l = [0, 0, 1, 1] ∨ l = [0, 1, 0, 1] ∨ l = [0, 1, 1, 0] ∨
      l = [1, 0, 0, 1] ∨ l = [1, 0, 1, 0] ∨ l = [1, 1, 0, 0] := by
  have hl := h.length_eq
  match l, hl, h with
  | [a, b, c, d], _, h =>
    have ha : a ∈ [0, 0, 1, 1] := h.subset (by simp)
    have hb : b ∈ [0, 0, 1, 1] := h.subset (by simp)
    have hc : c ∈ [0, 0, 1, 1] := h.subset (by simp)
    have hd : d ∈ [0, 0, 1, 1] := h.subset (by simp)
    simp only [List.mem_cons, List.mem_singleton, List.not_mem_nil, or_false, or_self_left] at ha hb hc hd
    rcases ha with rfl | rfl | rfl <;> rcases hb with rfl | rfl | rfl <;>
      rcases hc with rfl | rfl | rfl <;> rcases hd with rfl | rfl | rfl <;>
      first
        | exact absurd h (by decide)
        | simp

theorem perm_one_two (l : List Nat) (h : l.Perm [0, 1, 1]) :
    l = [0, 1, 1] ∨ l = [1, 0, 1] ∨ l = [1, 1, 0] := by
  have hl := h.length_eq
  match l, hl, h with
  | [a, b, c], _, h =>
    have ha : a ∈ [0, 1, 1] := h.subset (by simp)
    have hb : b ∈ [0, 1, 1] := h.subset (by simp)
    have hc : c ∈ [0, 1, 1] := h.subset (by simp)
    simp only [List.mem_cons, List.mem_singleton, List.not_mem_nil, or_false, or_self_left] at ha hb hc
    rcases ha with rfl | rfl | rfl <;> rcases hb with rfl | rfl | rfl <;>
      rcases hc with rfl | rfl | rfl <;>
      first
        | exact absurd h (by decide)
        | simp

/-- C6, as stated, fails: `applyDiscount` is invoked for `A1` and then for
`A2`, the lookup for `A2` resolves first and the one for `A1` last; both
invocations have settled and the discount state is bound to `A1`. -/
theorem applyDiscount_race_counterexample :
    (run sampleCatalog (raceEvents ticketA1 ticketA2 0 [1, 1, 0, 0]) initialRuntime).calls
        = [.settled (.ok ()), .settled (.ok ())] ∧
      (run sampleCatalog (raceEvents ticketA1 ticketA2 0 [1, 1, 0, 0]) initialRuntime).app.discount
        = { value := .int 20, tokenInstance := some ticketA1 } := by
  decide

/-- C6, amended: when `applyDiscount` is invoked for `t1` and then, with
the lookup for `t1` still pending, for `t2`, and both lookups succeed, then
for every order of resumptions, once both invocations have settled the
discount state is the one written by the invocation that was resumed last:
bound to `t2` when the lookup for `t1` completes first, bound to `t1` when
the lookup for `t2` completes first. -/
theorem applyDiscount_race_last_resolved_wins (fetch : Catalog) (t1 t2 : Ticket)
    (s : AppState) (d1 d2 : JsVal) (k : Nat) (order : List Nat)
    (h1 : catalogDiscount fetch t1 = .ok d1) (h2 : catalogDiscount fetch t2 = .ok d2)
    (hk : k ≤ 1) (horder : (List.replicate k 0 ++ order).Perm [0, 0, 1, 1]) :
    (run fetch (raceEvents t1 t2 k order) { app := s, calls := [], log := [] }).calls
        = [.settled (.ok ()), .settled (.ok ())] ∧
      (run fetch (raceEvents t1 t2 k order) { app := s, calls := [], log := [] }).app.discount
        = if order.getLast? = some 0 then { value := d1, tokenInstance := some t1 }
          else { value := d2, tokenInstance := some t2 } := by
  obtain ⟨u1, r1, j1, hk1, hf1, hj1, hd1⟩ := (catalogDiscount_ok_iff fetch t1 d1).1 h1
  obtain ⟨u2, r2, j2, hk2, hf2, hj2, hd2⟩ := (catalogDiscount_ok_iff fetch t2 d2).1 h2
  have hk' : k = 0 ∨ k = 1 := by omega
  rcases hk' with rfl | rfl
  · simp only [List.replicate, List.nil_append] at horder
    rcases perm_two_each order horder with h | h | h | h | h | h <;> subst h <;>
      simp [run, raceEvents, step, applyDiscountStart, resume, setDiscount, hk1, hf1, hj1,
        hd1, hk2, hf2, hj2, hd2]
  · have horder' : order.Perm [0, 1, 1] := by
      simpa [List.replicate] using horder
    rcases perm_one_two order horder' with h | h | h <;> subst h <;>
      simp [run, raceEvents, step, applyDiscountStart, resume, setDiscount, hk1, hf1, hj1,
        hd1, hk2, hf2, hj2, hd2]

theorem applyDiscount_race_last_resolved_wins_witness :
    (run sampleCatalog (raceEvents ticketA1 ticketA2 1 [1, 0, 1]) initialRuntime).calls
        = [.settled (.ok ()), .settled (.ok ())] ∧
      (run sampleCatalog (raceEvents ticketA1 ticketA2 1 [1, 0, 1]) initialRuntime).app.discount
        = if [1, 0, 1].getLast? = some 0 then { value := .int 20, tokenInstance := some ticketA1 }
          else { value := .int 5, tokenInstance := some ticketA2 } :=
  applyDiscount_race_last_resolved_wins sampleCatalog ticketA1 ticketA2 initialState
    (.int 20) (.int 5) 1 [1, 0, 1] (by decide) (by decide) (by decide) (by decide)

end App
